import Mathlib

/-!
# Verification of the resume-customizer pipeline (`resume_customizer.py`)

Shallow embedding of the single-file Python program.  Python strings are
modelled as `List Char`; Python's `str.strip`, `str.startswith`,
`str.endswith` and slicing are modelled explicitly below.  The stateful
pipeline (`customize_resume`, `render_resume`, and the `customize` CLI
command) is modelled as pure functions from an explicit environment
(environment variables, file contents, the remote service's response, the
subprocess outcome) to a run result that records the emitted side-effect
events, the messages printed to stdout/stderr, and the final outcome.
-/

namespace ResumeCustomizer

/-- Whitespace characters stripped by Python's `str.strip()` (ASCII range). -/
def isSpace (c : Char) : Bool :=
  c = ' ' || c = '\t' || c = '\n' || c = '\r' || c = Char.ofNat 11 || c = Char.ofNat 12

/-- Strip leading whitespace (Python `str.lstrip()`). -/
def lstrip : List Char → List Char
  | [] => []
  | a :: s => if isSpace a then lstrip s else a :: s

/-- Strip trailing whitespace (Python `str.rstrip()`). -/
def rstrip : List Char → List Char
  | [] => []
  | a :: s =>
    let r := rstrip s
    if r = [] then (if isSpace a then [] else [a]) else a :: r

/-- Python `str.strip()`: strip whitespace at both ends. -/
def pyStrip (s : List Char) : List Char := rstrip (lstrip s)

/-- Python `str.startswith(pat)`. -/
def hasPre : List Char → List Char → Bool
  | [], _ => true
  | _ :: _, [] => false
  | a :: p, b :: s => a = b && hasPre p s

/-- Python `str.endswith(pat)`. -/
def hasSuf (p s : List Char) : Bool := hasPre p.reverse s.reverse

/-- Substring occurrence test (contiguous). -/
def hasSub (p : List Char) : List Char → Bool
  | [] => hasPre p []
  | b :: s => hasPre p (b :: s) || hasSub p s

/-- The backtick character (U+0060). -/
def bq : Char := Char.ofNat 96

/-- `"```"` -/
def fence : List Char := [bq, bq, bq]

/-- `"```yaml"` -/
def fenceYaml : List Char := [bq, bq, bq, 'y', 'a', 'm', 'l']

/-- `"```yml"` -/
def fenceYml : List Char := [bq, bq, bq, 'y', 'm', 'l']

/-- `ResumeCustomizer._clean_yaml_response`: strip the text, remove one
leading ```` ```yaml ````/```` ```yml ````/```` ``` ```` marker (the code
slices `[7:]` in the first two branches and `[3:]` in the third, stripping
after each removal), then remove one trailing ```` ``` ```` marker if
present, stripping again. -/
def clean_yaml_response (response_content : List Char) : List Char :=
  let cleaned := pyStrip response_content
  let cleaned :=
    if hasPre fenceYaml cleaned then pyStrip (cleaned.drop 7)
    else if hasPre fenceYml cleaned then pyStrip (cleaned.drop 7)
    else if hasPre fence cleaned then pyStrip (cleaned.drop 3)
    else cleaned
  if hasSuf fence cleaned then pyStrip (cleaned.take (cleaned.length - 3))
  else cleaned

/-! ## The prompt builder (`_create_prompt` and `_make_api_call`'s preamble) -/

/-- Text before the interpolated job posting in `_create_prompt`. -/
def promptJobHead : List Char := "\nJOB POSTING:\n".toList

/-- Text between the interpolated job posting and the interpolated resume. -/
def promptResumeHead : List Char := "\n\nCURRENT RESUME (YAML format):\n".toList

/-- The fixed enumerated instruction list after the interpolated resume. -/
def promptTail : List Char :=
  ("\n\nINSTRUCTIONS:\nPlease modify the resume to better match this job posting. You must:\n\n1. EXPERIENCE SECTION HIGHLIGHTS:\n   - Reorder the highlights (bullet points) within each job in the Experience section\n   - Put the most relevant highlights first based on the job posting requirements\n   - Keep all highlights but reorder them by relevance to the job posting\n   - Do not add, remove, or modify the content of highlights - only reorder them\n\n2. TECHNOLOGIES SECTION:\n   - Remove technologies that are not relevant at all to the job posting\n   - Keep technologies that are mentioned or very closely related to those in the job posting\n   - Reorder the technologies to put the most relevant ones first, and reorder each technology category if needed.\n   - Add important technologies from the job posting that are missing but would be relevant. \n   - Only add important technologies that are equivalents or very closely related to those already listed in the resume.\n   - Only modify the \"details\" field within each technology category\n   - Maintain the same technology categories/labels\n\n3. IMPORTANT RESTRICTIONS:\n   - ONLY modify the highlights in the Experience section and details in the Technologies section\n   - Keep all other sections, formatting, and content exactly the same\n   - Return the complete modified YAML with proper formatting\n   - Do not change section names, structure, or any other content\n\nCRITICAL: Return ONLY the raw YAML content. Do not wrap it in code blocks, markdown, or any other formatting. Return the YAML exactly as it should be parsed. Be direct and focused in your modifications.\n").toList

/-- `ResumeCustomizer._create_prompt`: the f-string template around the two
verbatim inputs. -/
def create_prompt (resume_content job_posting : List Char) : List Char :=
  promptJobHead ++ job_posting ++ promptResumeHead ++ resume_content ++ promptTail

/-- The role-setting system message prepended inside `_make_api_call`. -/
def systemPreamble : List Char :=
  ("You are an expert resume writer and ATS optimization specialist. You will receive a resume in YAML format and a job posting. Your task is to modify ONLY the highlights in the Experience section and the Technologies section to better match the job posting while keeping all other content exactly the same.\n\n").toList

/-- `full_prompt` in `_make_api_call`: the single user-message text sent to
the remote service. -/
def full_prompt (resume_content job_posting : List Char) : List Char :=
  systemPreamble ++ create_prompt resume_content job_posting

/-! ## The pipeline model

`customize_resume`, `render_resume` and the CLI command `customize` perform
side effects (environment lookup, file reads/writes, one HTTP call, one
subprocess invocation, terminal output, an optional desktop notification).
They are modelled as pure functions of an explicit environment describing
what each external interaction would return; the run result records the
observable side-effect events in order, the messages printed to stdout and
stderr, and the outcome. -/

/-- The error kinds raised as `click.ClickException` by the pipeline. -/
inductive PipelineError where
  | missingApiKey
  | fileReadError (path msg : List Char)
  | invalidResumeYaml (msg : List Char)
  | apiRequestFailed (msg : List Char)
  | invalidModifiedYaml (msg : List Char)
  | renderFailed (stderrText : List Char)
  | renderToolMissing
deriving DecidableEq

/-- The `ClickException` message attached to each error in the source. -/
def errorMessage : PipelineError → List Char
  | .missingApiKey =>
      ("OpenRouter API key not found. Please set OPENROUTER_API_KEY in your .env file.\nExample .env file:\nOPENROUTER_API_KEY=sk-or-v1-your-key-here").toList
  | .fileReadError path msg => "Error reading ".toList ++ path ++ ": ".toList ++ msg
  | .invalidResumeYaml msg => "Invalid YAML format in resume file: ".toList ++ msg
  | .apiRequestFailed msg => "API request failed: ".toList ++ msg
  | .invalidModifiedYaml msg => "AI returned invalid YAML: ".toList ++ msg
  | .renderFailed stderrText => "Failed to render resume: ".toList ++ stderrText
  | .renderToolMissing =>
      "rendercv command not found. Please ensure renderCV is installed.".toList

/-- Observable side effects of a run, in order of occurrence. -/
inductive Event where
  | fileRead (path : List Char)
  | networkCall (payload : List Char)
  | fileWrite (path content : List Char)
  | procRun (cmd : List (List Char))
  | fileDelete (path : List Char)
  | notifyAttempt (message : List Char)
deriving DecidableEq

/-- Outcome of `subprocess.run(cmd, capture_output=True, text=True, check=True)`. -/
inductive SubprocResult where
  | exited (code : Nat) (stdoutText stderrText : List Char)
  | fileNotFound
deriving DecidableEq

/-- Everything the run observes from outside: the environment variable, the
two file contents, the YAML parser verdicts, the remote completion text, the
staging path picked by `tempfile`, and the renderer subprocess outcome. -/
structure Env where
  apiKey : Option (List Char)
  readResume : Except (List Char) (List Char)
  readJob : Except (List Char) (List Char)
  safeLoadError : List Char → Option (List Char)
  apiResponse : Except (List Char) (List Char)
  tempPath : List Char
  subprocess : SubprocResult

/-- Result of a (partial) run: printed messages, events, and outcome. -/
structure RunResult where
  stdoutMsgs : List (List Char)
  stderrMsgs : List (List Char)
  events : List Event
  outcome : Except PipelineError Unit

def msgCustomizing : List Char := "Customizing resume with AI...".toList

def renderSuccessMsg (output_name : List Char) : List Char :=
  "Resume rendered successfully as '".toList ++ output_name ++ ".pdf'".toList

def msgRenderCVOutput : List Char := "RenderCV output:".toList

def msgTempSaved (temp_file : List Char) : List Char :=
  "Temporary YAML file saved as: ".toList ++ temp_file

def msgInspect : List Char :=
  "You can inspect the modified resume YAML file before deleting it.".toList

/-- `ResumeCustomizer.render_resume`: run `rendercv render <temp_file>`,
report success or raise; the `finally` block always echoes the staging-file
messages and nothing ever deletes the staging file. -/
def render_resume (sub : SubprocResult) (temp_file output_name : List Char) : RunResult :=
  let cmd := ["rendercv".toList, "render".toList, temp_file]
  match sub with
  | .exited code _sout serr =>
    if code = 0 then
      { stdoutMsgs := [renderSuccessMsg output_name, msgTempSaved temp_file, msgInspect],
        stderrMsgs := [msgRenderCVOutput, serr],
        events := [.procRun cmd],
        outcome := .ok () }
    else
      { stdoutMsgs := [msgTempSaved temp_file, msgInspect],
        stderrMsgs := [],
        events := [.procRun cmd],
        outcome := .error (.renderFailed serr) }
  | .fileNotFound =>
      { stdoutMsgs := [msgTempSaved temp_file, msgInspect],
        stderrMsgs := [],
        events := [.procRun cmd],
        outcome := .error .renderToolMissing }

/-- `ResumeCustomizer.customize_resume`: credential check, file reads, input
validation, remote call (prompt built by `create_prompt`, response cleaned by
`_clean_yaml_response`), output validation, staging write, render. -/
def customize_resume (env : Env)
    (resume_file job_posting_file output_name : List Char) : RunResult :=
  match env.apiKey with
  | none =>
    { stdoutMsgs := [], stderrMsgs := [], events := [],
      outcome := .error .missingApiKey }
  | some _ =>
    match env.readResume with
    | .error m =>
      { stdoutMsgs := [], stderrMsgs := [], events := [.fileRead resume_file],
        outcome := .error (.fileReadError resume_file m) }
    | .ok resume_content =>
      match env.readJob with
      | .error m =>
        { stdoutMsgs := [], stderrMsgs := [],
          events := [.fileRead resume_file, .fileRead job_posting_file],
          outcome := .error (.fileReadError job_posting_file m) }
      | .ok job_posting =>
        match env.safeLoadError resume_content with
        | some m =>
          { stdoutMsgs := [], stderrMsgs := [],
            events := [.fileRead resume_file, .fileRead job_posting_file],
            outcome := .error (.invalidResumeYaml m) }
        | none =>
          match env.apiResponse with
          | .error m =>
            { stdoutMsgs := [msgCustomizing], stderrMsgs := [],
              events := [.fileRead resume_file, .fileRead job_posting_file,
                .networkCall (full_prompt resume_content job_posting)],
              outcome := .error (.apiRequestFailed m) }
          | .ok response_content =>
            let modified_yaml := clean_yaml_response (pyStrip response_content)
            match env.safeLoadError modified_yaml with
            | some m =>
              { stdoutMsgs := [msgCustomizing], stderrMsgs := [],
                events := [.fileRead resume_file, .fileRead job_posting_file,
                  .networkCall (full_prompt resume_content job_posting)],
                outcome := .error (.invalidModifiedYaml m) }
            | none =>
              let r := render_resume env.subprocess env.tempPath output_name
              { stdoutMsgs := msgCustomizing :: r.stdoutMsgs,
                stderrMsgs := r.stderrMsgs,
                events := [.fileRead resume_file, .fileRead job_posting_file,
                  .networkCall (full_prompt resume_content job_posting),
                  .fileWrite env.tempPath modified_yaml] ++ r.events,
                outcome := r.outcome }

/-- CLI-level environment: pipeline environment plus the notification side
channel (`plyer` availability and the notification call's outcome) and the
verbose flag. -/
structure CliEnv where
  env : Env
  plyerAvailable : Bool
  notifyOutcome : Except Unit Unit
  verbose : Bool

/-- Result of the `customize` CLI command. -/
structure CliResult where
  exitCode : Nat
  stdoutMsgs : List (List Char)
  stderrMsgs : List (List Char)
  events : List Event
  notified : Bool

def errMark : List Char := "❌ Error: ".toList

def msgDone : List Char := "✅ Resume customization completed successfully!".toList

def notifMessage (output : List Char) : List Char :=
  "Resume has been successfully customized and saved as '".toList ++ output
    ++ ".pdf'".toList

/-- The `customize` CLI command: optional verbose echoes, the pipeline run,
the success message and best-effort notification, or the `❌ Error:` message
and exit code 1 on any `ClickException`. -/
def customize (c : CliEnv) (resume_file job_posting_file output : List Char) : CliResult :=
  let verboseMsgs :=
    if c.verbose then
      ["Processing resume: ".toList ++ resume_file,
       "Job posting: ".toList ++ job_posting_file,
       "Output: ".toList ++ output]
    else []
  let r := customize_resume c.env resume_file job_posting_file output
  match r.outcome with
  | .error e =>
    { exitCode := 1,
      stdoutMsgs := verboseMsgs ++ r.stdoutMsgs,
      stderrMsgs := r.stderrMsgs ++ [errMark ++ errorMessage e],
      events := r.events,
      notified := false }
  | .ok _ =>
    if c.plyerAvailable then
      { exitCode := 0,
        stdoutMsgs := verboseMsgs ++ r.stdoutMsgs ++ [msgDone],
        stderrMsgs := r.stderrMsgs,
        events := r.events ++ [.notifyAttempt (notifMessage output)],
        notified := match c.notifyOutcome with | .ok _ => true | .error _ => false }
    else
      { exitCode := 0,
        stdoutMsgs := verboseMsgs ++ r.stdoutMsgs ++ [msgDone],
        stderrMsgs := r.stderrMsgs,
        events := r.events,
        notified := false }

/-- Concrete run environment whose resume file holds malformed YAML. -/
def envBadInput : Env :=
  { apiKey := some ("sk-or-v1-k".toList),
    readResume := .ok ("sections: [".toList),
    readJob := .ok ("Looking for a Python engineer".toList),
    safeLoadError := fun s =>
      if s = "sections: [".toList then some ("parse error".toList) else none,
    apiResponse := .ok ("name: X".toList),
    tempPath := "/tmp/t.yml".toList,
    subprocess := .exited 0 [] [] }

/-- Concrete run environment whose remote response is malformed YAML. -/
def envBadOutput : Env :=
  { apiKey := some ("sk-or-v1-k".toList),
    readResume := .ok ("name: X".toList),
    readJob := .ok ("Looking for a Python engineer".toList),
    safeLoadError := fun s =>
      if s = "bad: [".toList then some ("parse error".toList) else none,
    apiResponse := .ok ("bad: [".toList),
    tempPath := "/tmp/t.yml".toList,
    subprocess := .exited 0 [] [] }

/-- Concrete run environment with the credential variable unset. -/
def envNoKey : Env :=
  { apiKey := none,
    readResume := .ok ("name: X".toList),
    readJob := .ok ("Looking for a Python engineer".toList),
    safeLoadError := fun _ => none,
    apiResponse := .ok ("name: X".toList),
    tempPath := "/tmp/t.yml".toList,
    subprocess := .exited 0 [] [] }

/-- Concrete run environment in which every step succeeds. -/
def envAllOk : Env :=
  { apiKey := some ("sk-or-v1-k".toList),
    readResume := .ok ("name: X".toList),
    readJob := .ok ("Looking for a Python engineer".toList),
    safeLoadError := fun _ => none,
    apiResponse := .ok ("name: X".toList),
    tempPath := "/tmp/t.yml".toList,
    subprocess := .exited 0 [] ("render log".toList) }

/-- The CLI environment used in the missing-credential witness. -/
def cliNoKey : CliEnv :=
  { env := envNoKey, plyerAvailable := false, notifyOutcome := .ok (),
    verbose := false }

/-- The CLI environment used in success-path witnesses. -/
def cliAllOk : CliEnv :=
  { env := envAllOk, plyerAvailable := true, notifyOutcome := .ok (),
    verbose := false }

/-- The renderer commands recorded in a list of events. -/
def procRunCmds (evts : List Event) : List (List (List Char)) :=
  evts.filterMap fun e => match e with
    | .procRun cmd => some cmd
    | _ => none

/-! ## Lemmas about the string-stripping model -/

theorem length_lstrip_le (s : List Char) : (lstrip s).length ≤ s.length := by
  induction s with
  | nil => simp [lstrip]
  | cons a t ih =>
    simp only [lstrip]
    split
    · exact Nat.le_trans ih (Nat.le_succ _)
    · exact Nat.le_refl _

theorem length_rstrip_le (s : List Char) : (rstrip s).length ≤ s.length := by
  induction s with
  | nil => simp [rstrip]
  | cons a t ih =>
    simp only [rstrip]
    split
    · split <;> simp
    · simpa using Nat.succ_le_succ ih

theorem lstrip_eq_self_of_length (s : List Char) (h : (lstrip s).length = s.length) :
    lstrip s = s := by
  cases s with
  | nil => rfl
  | cons a t =>
    by_cases hsp : isSpace a = true
    · exfalso
      have h2 := length_lstrip_le t
      simp [lstrip, hsp] at h
      omega
    · simp [lstrip, hsp]

theorem lstrip_idem (s : List Char) : lstrip (lstrip s) = lstrip s := by
  induction s with
  | nil => rfl
  | cons a t ih =>
    simp only [lstrip]
    split
    · exact ih
    · simp only [lstrip]
      split
      · simp_all
      · rfl

theorem rstrip_idem (s : List Char) : rstrip (rstrip s) = rstrip s := by
  induction s with
  | nil => rfl
  | cons a t ih =>
    simp only [rstrip]
    split
    · split
      · rfl
      · simp only [rstrip]
        split <;> simp_all
    · simp only [rstrip, ih]
      split <;> simp_all

theorem lstrip_cons_of_not_space {a : Char} (s : List Char) (h : ¬ isSpace a = true) :
    lstrip (a :: s) = a :: s := by
  simp [lstrip, h]

/-- If a list is already left-stripped, right-stripping keeps it left-stripped. -/
theorem lstrip_rstrip (s : List Char) (h : lstrip s = s) : lstrip (rstrip s) = rstrip s := by
  cases s with
  | nil => rfl
  | cons a t =>
    have ha : ¬ isSpace a = true := by
      intro hsp
      have h1 : lstrip (a :: t) = lstrip t := by simp [lstrip, hsp]
      have h2 : (lstrip t).length ≤ t.length := length_lstrip_le t
      rw [h] at h1
      have := congrArg List.length h1
      simp at this
      omega
    simp only [rstrip]
    split
    · simp [lstrip, ha]
    · simp [lstrip, ha]

theorem pyStrip_idem (s : List Char) : pyStrip (pyStrip s) = pyStrip s := by
  unfold pyStrip
  rw [lstrip_rstrip (lstrip s) (lstrip_idem s), rstrip_idem]

/-- From `pyStrip y = y`, the list is already left-stripped. -/
theorem lstrip_eq_of_pyStrip_eq (y : List Char) (h : pyStrip y = y) : lstrip y = y := by
  have h1 : (rstrip (lstrip y)).length ≤ (lstrip y).length := length_rstrip_le _
  have h2 : (lstrip y).length ≤ y.length := length_lstrip_le _
  have h3 : (rstrip (lstrip y)).length = y.length := by rw [show rstrip (lstrip y) = y from h]
  exact lstrip_eq_self_of_length y (by omega)

/-- From `pyStrip y = y`, the list is already right-stripped. -/
theorem rstrip_eq_of_pyStrip_eq (y : List Char) (h : pyStrip y = y) : rstrip y = y := by
  have h1 := lstrip_eq_of_pyStrip_eq y h
  calc rstrip y = rstrip (lstrip y) := by rw [h1]
    _ = y := h

theorem rstrip_append_not_space {c : Char} (s : List Char) (h : ¬ isSpace c = true) :
    rstrip (s ++ [c]) = s ++ [c] := by
  induction s with
  | nil => simp [rstrip, h]
  | cons a t ih =>
    simp only [List.cons_append, rstrip, ih]
    split <;> simp_all

theorem rstrip_append_space {c : Char} (s : List Char) (h : isSpace c = true) :
    rstrip (s ++ [c]) = rstrip s := by
  induction s with
  | nil => simp [rstrip, h]
  | cons a t ih =>
    simp only [List.cons_append, rstrip, List.append_eq, ih]

theorem hasPre_self_append (p z : List Char) : hasPre p (p ++ z) = true := by
  induction p with
  | nil => simp [hasPre]
  | cons a t ih => simp [hasPre, ih]

theorem hasPre_fence_of_fenceYaml (s : List Char) (h : hasPre fenceYaml s = true) :
    hasPre fence s = true := by
  match s with
  | [] => simp [hasPre, fenceYaml] at h
  | [a] => simp [hasPre, fenceYaml] at h
  | [a, b] => simp [hasPre, fenceYaml] at h
  | a :: b :: c :: t =>
    simp only [hasPre, fenceYaml, fence, Bool.and_eq_true, decide_eq_true_eq] at h ⊢
    exact ⟨h.1, h.2.1, h.2.2.1, trivial⟩

theorem hasPre_fence_of_fenceYml (s : List Char) (h : hasPre fenceYml s = true) :
    hasPre fence s = true := by
  match s with
  | [] => simp [hasPre, fenceYml] at h
  | [a] => simp [hasPre, fenceYml] at h
  | [a, b] => simp [hasPre, fenceYml] at h
  | a :: b :: c :: t =>
    simp only [hasPre, fenceYml, fence, Bool.and_eq_true, decide_eq_true_eq] at h ⊢
    exact ⟨h.1, h.2.1, h.2.2.1, trivial⟩

/-- The de-fenced text is always fully stripped (helper behind claims C1/C9). -/
theorem pyStrip_clean (x : List Char) :
    pyStrip (clean_yaml_response x) = clean_yaml_response x := by
  simp only [clean_yaml_response]
  repeat' split
  all_goals exact pyStrip_idem _

theorem head_not_space_of_lstrip_eq {a : Char} {t : List Char}
    (h : lstrip (a :: t) = a :: t) : ¬ isSpace a = true := by
  intro hsp
  have h2 := length_lstrip_le t
  simp [lstrip, hsp] at h
  have h3 := congrArg List.length h
  simp at h3
  omega

theorem pyStrip_eq_self_of (s : List Char) (h1 : lstrip s = s) (h2 : rstrip s = s) :
    pyStrip s = s := by
  unfold pyStrip
  rw [h1, h2]

/-- A stripped nonempty block followed by a newline and a closing fence is
already stripped. -/
theorem block_strip (a : Char) (t : List Char) (hy : pyStrip (a :: t) = a :: t) :
    pyStrip ((a :: t) ++ '\n' :: fence) = (a :: t) ++ '\n' :: fence := by
  have ha : ¬ isSpace a = true :=
    head_not_space_of_lstrip_eq (lstrip_eq_of_pyStrip_eq _ hy)
  apply pyStrip_eq_self_of
  · simp [List.cons_append, lstrip, ha]
  · have hassoc : (a :: t) ++ '\n' :: fence = ((a :: t) ++ ['\n', bq, bq]) ++ [bq] := by
      simp [fence, List.append_assoc]
    rw [hassoc]
    exact rstrip_append_not_space _ (by decide)

theorem middle_strip (a : Char) (t : List Char) (hy : pyStrip (a :: t) = a :: t) :
    pyStrip ('\n' :: ((a :: t) ++ '\n' :: fence)) = (a :: t) ++ '\n' :: fence := by
  have h1 : lstrip ('\n' :: ((a :: t) ++ '\n' :: fence)) = lstrip ((a :: t) ++ '\n' :: fence) := rfl
  calc pyStrip ('\n' :: ((a :: t) ++ '\n' :: fence))
      = rstrip (lstrip ((a :: t) ++ '\n' :: fence)) := by rw [pyStrip, h1]
    _ = pyStrip ((a :: t) ++ '\n' :: fence) := rfl
    _ = (a :: t) ++ '\n' :: fence := block_strip a t hy

theorem hasSuf_fence_block (y : List Char) : hasSuf fence (y ++ '\n' :: fence) = true := by
  unfold hasSuf
  have h1 : (y ++ '\n' :: fence).reverse = fence ++ ('\n' :: y.reverse) := by
    simp [fence, List.reverse_append]
  rw [h1, show fence.reverse = fence from by decide]
  exact hasPre_self_append _ _

theorem take_block (y : List Char) :
    (y ++ '\n' :: fence).take ((y ++ '\n' :: fence).length - 3) = y ++ ['\n'] := by
  have hlen : (y ++ '\n' :: fence).length = y.length + 4 := by simp [fence]
  rw [hlen, show y.length + 4 - 3 = y.length + 1 from by omega,
    List.take_append_eq_append_take, List.take_of_length_le (by omega)]
  simp [fence]

theorem final_strip (a : Char) (t : List Char) (hy : pyStrip (a :: t) = a :: t) :
    pyStrip ((a :: t) ++ ['\n']) = a :: t := by
  have ha : ¬ isSpace a = true :=
    head_not_space_of_lstrip_eq (lstrip_eq_of_pyStrip_eq _ hy)
  have h1 : lstrip ((a :: t) ++ ['\n']) = (a :: t) ++ ['\n'] := by
    simp [List.cons_append, lstrip, ha]
  calc pyStrip ((a :: t) ++ ['\n'])
      = rstrip ((a :: t) ++ ['\n']) := by rw [pyStrip, h1]
    _ = rstrip (a :: t) := rstrip_append_space _ (by decide)
    _ = a :: t := rstrip_eq_of_pyStrip_eq _ hy

/-- De-fencing a ```` ```yaml ````-tagged fence pair around a stripped body
returns exactly the body. -/
theorem clean_pair_yaml (y : List Char) (hy : pyStrip y = y) :
    clean_yaml_response (fenceYaml ++ '\n' :: (y ++ '\n' :: fence)) = y := by
  cases y with
  | nil => decide
  | cons a t =>
    have e0 : pyStrip (fenceYaml ++ '\n' :: ((a :: t) ++ '\n' :: fence))
        = fenceYaml ++ '\n' :: ((a :: t) ++ '\n' :: fence) := by
      apply pyStrip_eq_self_of _ rfl
      rw [show fenceYaml ++ '\n' :: ((a :: t) ++ '\n' :: fence)
          = (fenceYaml ++ '\n' :: ((a :: t) ++ ['\n', bq, bq])) ++ [bq] from by
        simp [fence, List.append_assoc]]
      exact rstrip_append_not_space _ (by decide)
    have e1 : hasPre fenceYaml (fenceYaml ++ '\n' :: ((a :: t) ++ '\n' :: fence)) = true :=
      hasPre_self_append _ _
    have e3 : pyStrip (List.drop 7 (fenceYaml ++ '\n' :: ((a :: t) ++ '\n' :: fence)))
        = (a :: t) ++ '\n' :: fence := by
      rw [show List.drop 7 (fenceYaml ++ '\n' :: ((a :: t) ++ '\n' :: fence))
          = '\n' :: ((a :: t) ++ '\n' :: fence) from rfl]
      exact middle_strip a t hy
    simp only [clean_yaml_response, e0]
    rw [if_pos e1, e3, if_pos (hasSuf_fence_block (a :: t)), take_block]
    exact final_strip a t hy

/-- De-fencing a ```` ```yml ````-tagged fence pair around a stripped body
returns exactly the body (the `[7:]` slice also removes the newline after the
six-character tag). -/
theorem clean_pair_yml (y : List Char) (hy : pyStrip y = y) :
    clean_yaml_response (fenceYml ++ '\n' :: (y ++ '\n' :: fence)) = y := by
  cases y with
  | nil => decide
  | cons a t =>
    have e0 : pyStrip (fenceYml ++ '\n' :: ((a :: t) ++ '\n' :: fence))
        = fenceYml ++ '\n' :: ((a :: t) ++ '\n' :: fence) := by
      apply pyStrip_eq_self_of _ rfl
      rw [show fenceYml ++ '\n' :: ((a :: t) ++ '\n' :: fence)
          = (fenceYml ++ '\n' :: ((a :: t) ++ ['\n', bq, bq])) ++ [bq] from by
        simp [fence, List.append_assoc]]
      exact rstrip_append_not_space _ (by decide)
    have e1 : hasPre fenceYaml (fenceYml ++ '\n' :: ((a :: t) ++ '\n' :: fence)) = false := rfl
    have e2 : hasPre fenceYml (fenceYml ++ '\n' :: ((a :: t) ++ '\n' :: fence)) = true :=
      hasPre_self_append _ _
    have e3 : pyStrip (List.drop 7 (fenceYml ++ '\n' :: ((a :: t) ++ '\n' :: fence)))
        = (a :: t) ++ '\n' :: fence := by
      rw [show List.drop 7 (fenceYml ++ '\n' :: ((a :: t) ++ '\n' :: fence))
          = (a :: t) ++ '\n' :: fence from rfl]
      exact block_strip a t hy
    have n1 : ¬ hasPre fenceYaml (fenceYml ++ '\n' :: ((a :: t) ++ '\n' :: fence)) = true := by
      rw [e1]; exact Bool.false_ne_true
    simp only [clean_yaml_response, e0]
    rw [if_neg n1, if_pos e2, e3, if_pos (hasSuf_fence_block (a :: t)), take_block]
    exact final_strip a t hy

/-- De-fencing an untagged fence pair around a stripped body returns exactly
the body. -/
theorem clean_pair_bare (y : List Char) (hy : pyStrip y = y) :
    clean_yaml_response (fence ++ '\n' :: (y ++ '\n' :: fence)) = y := by
  cases y with
  | nil => decide
  | cons a t =>
    have e0 : pyStrip (fence ++ '\n' :: ((a :: t) ++ '\n' :: fence))
        = fence ++ '\n' :: ((a :: t) ++ '\n' :: fence) := by
      apply pyStrip_eq_self_of _ rfl
      rw [show fence ++ '\n' :: ((a :: t) ++ '\n' :: fence)
          = (fence ++ '\n' :: ((a :: t) ++ ['\n', bq, bq])) ++ [bq] from by
        simp [fence, List.append_assoc]]
      exact rstrip_append_not_space _ (by decide)
    have e1 : hasPre fenceYaml (fence ++ '\n' :: ((a :: t) ++ '\n' :: fence)) = false := rfl
    have e1' : hasPre fenceYml (fence ++ '\n' :: ((a :: t) ++ '\n' :: fence)) = false := rfl
    have e2 : hasPre fence (fence ++ '\n' :: ((a :: t) ++ '\n' :: fence)) = true :=
      hasPre_self_append _ _
    have e3 : pyStrip (List.drop 3 (fence ++ '\n' :: ((a :: t) ++ '\n' :: fence)))
        = (a :: t) ++ '\n' :: fence := by
      rw [show List.drop 3 (fence ++ '\n' :: ((a :: t) ++ '\n' :: fence))
          = '\n' :: ((a :: t) ++ '\n' :: fence) from rfl]
      exact middle_strip a t hy
    have n1 : ¬ hasPre fenceYaml (fence ++ '\n' :: ((a :: t) ++ '\n' :: fence)) = true := by
      rw [e1]; exact Bool.false_ne_true
    have n2 : ¬ hasPre fenceYml (fence ++ '\n' :: ((a :: t) ++ '\n' :: fence)) = true := by
      rw [e1']; exact Bool.false_ne_true
    simp only [clean_yaml_response, e0]
    rw [if_neg n1, if_neg n2, if_pos e2, e3,
      if_pos (hasSuf_fence_block (a :: t)), take_block]
    exact final_strip a t hy

/-- De-fencing is idempotent on any input whose de-fenced form neither begins
nor ends with a triple-backtick marker. -/
theorem clean_idem_of_unfenced (x : List Char)
    (h1 : hasPre fence (clean_yaml_response x) = false)
    (h2 : hasSuf fence (clean_yaml_response x) = false) :
    clean_yaml_response (clean_yaml_response x) = clean_yaml_response x := by
  have hstrip := pyStrip_clean x
  have hyaml : hasPre fenceYaml (clean_yaml_response x) = false := by
    cases hq : hasPre fenceYaml (clean_yaml_response x)
    · rfl
    · exact absurd (hasPre_fence_of_fenceYaml _ hq) (by simp [h1])
  have hyml : hasPre fenceYml (clean_yaml_response x) = false := by
    cases hq : hasPre fenceYml (clean_yaml_response x)
    · rfl
    · exact absurd (hasPre_fence_of_fenceYml _ hq) (by simp [h1])
  generalize hgen : clean_yaml_response x = y at hstrip hyaml hyml h1 h2 ⊢
  simp only [clean_yaml_response, hstrip, hyaml, hyml, h1, h2, Bool.false_eq_true,
    if_false]

/-- Any run either succeeds or prints nothing to stderr before the CLI's
`❌ Error:` message (stderr output only happens on the render success path). -/
theorem run_cases (env : Env) (rf jf outn : List Char) :
    (customize_resume env rf jf outn).outcome = .ok ()
    ∨ (customize_resume env rf jf outn).stderrMsgs = [] := by
  cases hk : env.apiKey with
  | none => right; simp [customize_resume, hk]
  | some k =>
    cases hr : env.readResume with
    | error m => right; simp [customize_resume, hk, hr]
    | ok r =>
      cases hj : env.readJob with
      | error m => right; simp [customize_resume, hk, hr, hj]
      | ok j =>
        cases hv : env.safeLoadError r with
        | some m => right; simp [customize_resume, hk, hr, hj, hv]
        | none =>
          cases hresp : env.apiResponse with
          | error m => right; simp [customize_resume, hk, hr, hj, hv, hresp]
          | ok resp =>
            cases hv2 : env.safeLoadError (clean_yaml_response (pyStrip resp)) with
            | some m => right; simp [customize_resume, hk, hr, hj, hv, hresp, hv2]
            | none =>
              cases hs : env.subprocess with
              | exited code sout serr =>
                by_cases hc : code = 0
                · left
                  simp [customize_resume, render_resume, hk, hr, hj, hv, hresp, hv2, hs, hc]
                · right
                  simp [customize_resume, render_resume, hk, hr, hj, hv, hresp, hv2, hs, hc]
              | fileNotFound =>
                right
                simp [customize_resume, render_resume, hk, hr, hj, hv, hresp, hv2, hs]

theorem render_resume_events (sub : SubprocResult) (tf outn : List Char) :
    (render_resume sub tf outn).events
      = [.procRun ["rendercv".toList, "render".toList, tf]] := by
  cases sub with
  | exited code sout serr => by_cases hc : code = 0 <;> simp [render_resume, hc]
  | fileNotFound => simp [render_resume]

theorem render_resume_indep (sub : SubprocResult) (tf o₁ o₂ : List Char) :
    (render_resume sub tf o₁).events = (render_resume sub tf o₂).events
    ∧ (render_resume sub tf o₁).outcome = (render_resume sub tf o₂).outcome := by
  cases sub with
  | exited code sout serr => by_cases hc : code = 0 <;> simp [render_resume, hc]
  | fileNotFound => simp [render_resume]

/-- The events and outcome of a pipeline run do not depend on the output
base name. -/
theorem customize_resume_indep (env : Env) (rf jf o₁ o₂ : List Char) :
    (customize_resume env rf jf o₁).events = (customize_resume env rf jf o₂).events
    ∧ (customize_resume env rf jf o₁).outcome
        = (customize_resume env rf jf o₂).outcome := by
  cases hk : env.apiKey with
  | none => simp [customize_resume, hk]
  | some k =>
    cases hr : env.readResume with
    | error m => simp [customize_resume, hk, hr]
    | ok r =>
      cases hj : env.readJob with
      | error m => simp [customize_resume, hk, hr, hj]
      | ok j =>
        cases hv : env.safeLoadError r with
        | some m => simp [customize_resume, hk, hr, hj, hv]
        | none =>
          cases hresp : env.apiResponse with
          | error m => simp [customize_resume, hk, hr, hj, hv, hresp]
          | ok resp =>
            cases hv2 : env.safeLoadError (clean_yaml_response (pyStrip resp)) with
            | some m => simp [customize_resume, hk, hr, hj, hv, hresp, hv2]
            | none =>
              simp [customize_resume, hk, hr, hj, hv, hresp, hv2,
                render_resume_events env.subprocess,
                (render_resume_indep env.subprocess env.tempPath o₁ o₂).2]

/-- Every renderer command recorded by a pipeline run names exactly the
fixed executable, the `render` verb and the staging path. -/
theorem procRunCmds_customize_resume (env : Env) (rf jf outn : List Char) :
    procRunCmds (customize_resume env rf jf outn).events = []
    ∨ procRunCmds (customize_resume env rf jf outn).events
        = [["rendercv".toList, "render".toList, env.tempPath]] := by
  cases hk : env.apiKey with
  | none => left; simp [customize_resume, hk, procRunCmds]
  | some k =>
    cases hr : env.readResume with
    | error m => left; simp [customize_resume, hk, hr, procRunCmds]
    | ok r =>
      cases hj : env.readJob with
      | error m => left; simp [customize_resume, hk, hr, hj, procRunCmds]
      | ok j =>
        cases hv : env.safeLoadError r with
        | some m => left; simp [customize_resume, hk, hr, hj, hv, procRunCmds]
        | none =>
          cases hresp : env.apiResponse with
          | error m => left; simp [customize_resume, hk, hr, hj, hv, hresp, procRunCmds]
          | ok resp =>
            cases hv2 : env.safeLoadError (clean_yaml_response (pyStrip resp)) with
            | some m =>
              left; simp [customize_resume, hk, hr, hj, hv, hresp, hv2, procRunCmds]
            | none =>
              right
              simp [customize_resume, hk, hr, hj, hv, hresp, hv2,
                render_resume_events env.subprocess, procRunCmds]

/-! ## Claim theorems -/

/-- C1 (amended): de-fencing strips at most (indeed, exactly) one matching
pair of leading/trailing triple-backtick fence markers, whether the opening
fence is tagged `yaml`, tagged `yml`, or untagged, and it is idempotent on
every input whose de-fenced result neither begins nor ends with a fence
marker.  (Unrestricted idempotence fails; see the counterexample.) -/
theorem c1_defence_one_pair_and_idem_on_unfenced :
    (∀ x : List Char, hasPre fence (clean_yaml_response x) = false →
      hasSuf fence (clean_yaml_response x) = false →
      clean_yaml_response (clean_yaml_response x) = clean_yaml_response x)
    ∧ (∀ y : List Char, pyStrip y = y →
      clean_yaml_response (fenceYaml ++ '\n' :: (y ++ '\n' :: fence)) = y)
    ∧ (∀ y : List Char, pyStrip y = y →
      clean_yaml_response (fenceYml ++ '\n' :: (y ++ '\n' :: fence)) = y)
    ∧ (∀ y : List Char, pyStrip y = y →
      clean_yaml_response (fence ++ '\n' :: (y ++ '\n' :: fence)) = y) :=
  ⟨clean_idem_of_unfenced, clean_pair_yaml, clean_pair_yml, clean_pair_bare⟩

/-- C1 counterexample: de-fencing is not idempotent on every input.  On
`"```yaml```yaml"` the first pass yields `"```yaml"` and a second pass yields
`""`. -/
theorem c1_not_idempotent_cx :
    ¬ (clean_yaml_response (clean_yaml_response ("```yaml```yaml".toList))
        = clean_yaml_response ("```yaml```yaml".toList)) := by decide

/-- C1 witness: the amended theorem applied at concrete inputs. -/
theorem c1_defence_one_pair_and_idem_on_unfenced_witness :
    (hasPre fence (clean_yaml_response ("name: X".toList)) = false
      ∧ hasSuf fence (clean_yaml_response ("name: X".toList)) = false
      ∧ clean_yaml_response (clean_yaml_response ("name: X".toList))
          = clean_yaml_response ("name: X".toList))
    ∧ (pyStrip ("name: X".toList) = "name: X".toList
      ∧ clean_yaml_response (fenceYaml ++ '\n' :: ("name: X".toList ++ '\n' :: fence))
          = "name: X".toList
      ∧ clean_yaml_response (fenceYml ++ '\n' :: ("name: X".toList ++ '\n' :: fence))
          = "name: X".toList
      ∧ clean_yaml_response (fence ++ '\n' :: ("name: X".toList ++ '\n' :: fence))
          = "name: X".toList) :=
  ⟨⟨by decide, by decide,
      c1_defence_one_pair_and_idem_on_unfenced.1 _ (by decide) (by decide)⟩,
    ⟨by decide,
      c1_defence_one_pair_and_idem_on_unfenced.2.1 _ (by decide),
      c1_defence_one_pair_and_idem_on_unfenced.2.2.1 _ (by decide),
      c1_defence_one_pair_and_idem_on_unfenced.2.2.2 _ (by decide)⟩⟩

/-- C9: the de-fenced result never has leading or trailing whitespace, and
consequently unfenced text carrying surrounding whitespace is never returned
byte-identically. -/
theorem c9_clean_always_stripped :
    (∀ x : List Char, pyStrip (clean_yaml_response x) = clean_yaml_response x)
    ∧ (∀ x : List Char, pyStrip x ≠ x → clean_yaml_response x ≠ x) := by
  refine ⟨pyStrip_clean, ?_⟩
  intro x hx hc
  apply hx
  calc pyStrip x = pyStrip (clean_yaml_response x) := by rw [hc]
    _ = clean_yaml_response x := pyStrip_clean x
    _ = x := hc

/-- C9 witness: the theorem applied at a concrete whitespace-padded input. -/
theorem c9_clean_always_stripped_witness :
    pyStrip (" name: X ".toList) ≠ " name: X ".toList
    ∧ clean_yaml_response (" name: X ".toList) ≠ " name: X ".toList :=
  ⟨by decide, c9_clean_always_stripped.2 _ (by decide)⟩

/-- C4: the prompt builder is a deterministic pure function of the two input
texts — byte-identical inputs give byte-identical request text. -/
theorem c4_create_prompt_deterministic :
    ∀ r₁ j₁ r₂ j₂ : List Char, r₁ = r₂ → j₁ = j₂ →
      create_prompt r₁ j₁ = create_prompt r₂ j₂ := by
  intro r₁ j₁ r₂ j₂ hr hj
  rw [hr, hj]

/-- C4 witness: the theorem applied at concrete equal inputs. -/
theorem c4_create_prompt_deterministic_witness :
    create_prompt ("name: X".toList) ("Python engineer".toList)
      = create_prompt ("name: X".toList) ("Python engineer".toList) :=
  c4_create_prompt_deterministic _ _ _ _ rfl rfl

/-- C5: the full transformation request is the fixed role-setting preamble
and instruction template around the verbatim job posting and the verbatim
resume text; in particular both inputs occur verbatim as contiguous
substrings. -/
theorem c5_request_structure :
    ∀ resume_content job_posting : List Char,
      full_prompt resume_content job_posting
        = (systemPreamble ++ promptJobHead) ++ job_posting
            ++ (promptResumeHead ++ resume_content ++ promptTail)
      ∧ (∃ u v, full_prompt resume_content job_posting = u ++ job_posting ++ v)
      ∧ (∃ u v, full_prompt resume_content job_posting = u ++ resume_content ++ v) := by
  intro r j
  refine ⟨?_, ⟨systemPreamble ++ promptJobHead,
      promptResumeHead ++ r ++ promptTail, ?_⟩,
    ⟨systemPreamble ++ promptJobHead ++ j ++ promptResumeHead, promptTail, ?_⟩⟩ <;>
    simp [full_prompt, create_prompt, List.append_assoc]

/-- C2: a run whose original resume text fails YAML validation ends in a
fatal error and performs no network call; a run whose cleaned transformation
result fails YAML validation ends in a fatal error after the network call but
performs no staging write and no render invocation. -/
theorem c2_validation_halts :
    (∀ (env : Env) (rf jf outn r : List Char),
      env.readResume = .ok r → env.safeLoadError r ≠ none →
      (∃ e, (customize_resume env rf jf outn).outcome = .error e)
      ∧ ∀ p, Event.networkCall p ∉ (customize_resume env rf jf outn).events)
    ∧ (∀ (env : Env) (rf jf outn k r j resp m : List Char),
      env.apiKey = some k → env.readResume = .ok r → env.readJob = .ok j →
      env.safeLoadError r = none → env.apiResponse = .ok resp →
      env.safeLoadError (clean_yaml_response (pyStrip resp)) = some m →
      (customize_resume env rf jf outn).outcome
          = .error (.invalidModifiedYaml m)
      ∧ (∃ p, Event.networkCall p ∈ (customize_resume env rf jf outn).events)
      ∧ (∀ p cnt, Event.fileWrite p cnt ∉ (customize_resume env rf jf outn).events)
      ∧ (∀ cmd, Event.procRun cmd ∉ (customize_resume env rf jf outn).events)) := by
  constructor
  · intro env rf jf outn r hr hv
    cases hk : env.apiKey with
    | none =>
      exact ⟨⟨.missingApiKey, by simp [customize_resume, hk]⟩,
        by simp [customize_resume, hk]⟩
    | some k =>
      cases hj : env.readJob with
      | error m =>
        exact ⟨⟨.fileReadError jf m, by simp [customize_resume, hk, hr, hj]⟩,
          by simp [customize_resume, hk, hr, hj]⟩
      | ok j =>
        cases hv2 : env.safeLoadError r with
        | none => exact absurd hv2 hv
        | some m =>
          exact ⟨⟨.invalidResumeYaml m, by simp [customize_resume, hk, hr, hj, hv2]⟩,
            by simp [customize_resume, hk, hr, hj, hv2]⟩
  · intro env rf jf outn k r j resp m hk hr hj hv hresp hv2
    refine ⟨by simp [customize_resume, hk, hr, hj, hv, hresp, hv2],
      ⟨full_prompt r j, by simp [customize_resume, hk, hr, hj, hv, hresp, hv2]⟩,
      by simp [customize_resume, hk, hr, hj, hv, hresp, hv2],
      by simp [customize_resume, hk, hr, hj, hv, hresp, hv2]⟩

/-- C2 witness: the theorem applied to concrete runs, one with a malformed
resume file, one with a malformed transformation result. -/
theorem c2_validation_halts_witness :
    (envBadInput.readResume = .ok ("sections: [".toList)
      ∧ envBadInput.safeLoadError ("sections: [".toList) ≠ none
      ∧ (∃ e, (customize_resume envBadInput ("r.yml".toList) ("j.txt".toList)
          ("tempresume".toList)).outcome = .error e)
      ∧ ∀ p, Event.networkCall p ∉ (customize_resume envBadInput ("r.yml".toList)
          ("j.txt".toList) ("tempresume".toList)).events)
    ∧ ((customize_resume envBadOutput ("r.yml".toList) ("j.txt".toList)
          ("tempresume".toList)).outcome
          = .error (.invalidModifiedYaml ("parse error".toList))
      ∧ (∃ p, Event.networkCall p ∈ (customize_resume envBadOutput ("r.yml".toList)
          ("j.txt".toList) ("tempresume".toList)).events)
      ∧ (∀ p cnt, Event.fileWrite p cnt ∉ (customize_resume envBadOutput ("r.yml".toList)
          ("j.txt".toList) ("tempresume".toList)).events)
      ∧ (∀ cmd, Event.procRun cmd ∉ (customize_resume envBadOutput ("r.yml".toList)
          ("j.txt".toList) ("tempresume".toList)).events)) :=
  ⟨⟨rfl, by decide,
      (c2_validation_halts.1 envBadInput ("r.yml".toList) ("j.txt".toList)
        ("tempresume".toList) ("sections: [".toList) rfl (by decide)).1,
      (c2_validation_halts.1 envBadInput ("r.yml".toList) ("j.txt".toList)
        ("tempresume".toList) ("sections: [".toList) rfl (by decide)).2⟩,
    c2_validation_halts.2 envBadOutput ("r.yml".toList) ("j.txt".toList)
      ("tempresume".toList) ("sk-or-v1-k".toList) ("name: X".toList)
      ("Looking for a Python engineer".toList) ("bad: [".toList)
      ("parse error".toList) rfl rfl rfl (by decide) rfl (by decide)⟩

/-- C3: with the credential environment variable absent the run fails with
the missing-credential error, performs no network call, and the error message
contains guidance on setting `OPENROUTER_API_KEY`. -/
theorem c3_missing_credential :
    ∀ (env : Env) (rf jf outn : List Char), env.apiKey = none →
      (customize_resume env rf jf outn).outcome = .error .missingApiKey
      ∧ (∀ p, Event.networkCall p ∉ (customize_resume env rf jf outn).events)
      ∧ hasSub ("Please set OPENROUTER_API_KEY".toList)
          (errorMessage .missingApiKey) = true := by
  intro env rf jf outn hk
  exact ⟨by simp [customize_resume, hk], by simp [customize_resume, hk], by decide⟩

/-- C3 witness: the theorem applied to a concrete run with no credential. -/
theorem c3_missing_credential_witness :
    (customize_resume envNoKey ("r.yml".toList) ("j.txt".toList)
        ("tempresume".toList)).outcome = .error .missingApiKey
    ∧ (∀ p, Event.networkCall p ∉ (customize_resume envNoKey ("r.yml".toList)
        ("j.txt".toList) ("tempresume".toList)).events)
    ∧ hasSub ("Please set OPENROUTER_API_KEY".toList)
        (errorMessage .missingApiKey) = true :=
  c3_missing_credential envNoKey ("r.yml".toList) ("j.txt".toList)
    ("tempresume".toList) rfl

/-- C6: non-zero renderer exit fails with a render error carrying the
captured stderr; a missing renderer executable fails with the distinct
renderer-missing error; success reports the expected artifact name and
echoes the renderer's diagnostic stream; and in every case the run emits no
file deletion and prints the staging-file retention message. -/
theorem c6_render_contract :
    (∀ (code : Nat) (sout serr tf outn : List Char), code ≠ 0 →
      (render_resume (.exited code sout serr) tf outn).outcome
          = .error (.renderFailed serr))
    ∧ (∀ tf outn : List Char,
      (render_resume .fileNotFound tf outn).outcome = .error .renderToolMissing)
    ∧ (∀ serr : List Char,
      PipelineError.renderToolMissing ≠ PipelineError.renderFailed serr)
    ∧ (∀ sout serr tf outn : List Char,
      (render_resume (.exited 0 sout serr) tf outn).outcome = .ok ()
      ∧ renderSuccessMsg outn ∈ (render_resume (.exited 0 sout serr) tf outn).stdoutMsgs
      ∧ serr ∈ (render_resume (.exited 0 sout serr) tf outn).stderrMsgs)
    ∧ (∀ (sub : SubprocResult) (tf outn p : List Char),
      Event.fileDelete p ∉ (render_resume sub tf outn).events
      ∧ msgTempSaved tf ∈ (render_resume sub tf outn).stdoutMsgs) := by
  refine ⟨?_, ?_, ?_, ?_, ?_⟩
  · intro code sout serr tf outn hc
    simp [render_resume, hc]
  · intro tf outn
    simp [render_resume]
  · intro serr h
    exact PipelineError.noConfusion h
  · intro sout serr tf outn
    exact ⟨by simp [render_resume], by simp [render_resume], by simp [render_resume]⟩
  · intro sub tf outn p
    cases sub with
    | exited code sout serr => by_cases hc : code = 0 <;> simp [render_resume, hc]
    | fileNotFound => simp [render_resume]

/-- C6 witness: the theorem applied to concrete renderer outcomes. -/
theorem c6_render_contract_witness :
    ((1 : Nat) ≠ 0
      ∧ (render_resume (.exited 1 [] ("boom".toList)) ("/tmp/t.yml".toList)
          ("tempresume".toList)).outcome = .error (.renderFailed ("boom".toList)))
    ∧ (render_resume .fileNotFound ("/tmp/t.yml".toList)
        ("tempresume".toList)).outcome = .error .renderToolMissing
    ∧ ((render_resume (.exited 0 [] ("log".toList)) ("/tmp/t.yml".toList)
          ("tempresume".toList)).outcome = .ok ()
      ∧ renderSuccessMsg ("tempresume".toList)
          ∈ (render_resume (.exited 0 [] ("log".toList)) ("/tmp/t.yml".toList)
              ("tempresume".toList)).stdoutMsgs
      ∧ ("log".toList)
          ∈ (render_resume (.exited 0 [] ("log".toList)) ("/tmp/t.yml".toList)
              ("tempresume".toList)).stderrMsgs)
    ∧ (Event.fileDelete ("/tmp/t.yml".toList)
          ∉ (render_resume .fileNotFound ("/tmp/t.yml".toList)
              ("tempresume".toList)).events
      ∧ msgTempSaved ("/tmp/t.yml".toList)
          ∈ (render_resume .fileNotFound ("/tmp/t.yml".toList)
              ("tempresume".toList)).stdoutMsgs) :=
  ⟨⟨by decide, c6_render_contract.1 1 [] ("boom".toList) ("/tmp/t.yml".toList)
      ("tempresume".toList) (by decide)⟩,
    c6_render_contract.2.1 ("/tmp/t.yml".toList) ("tempresume".toList),
    c6_render_contract.2.2.2.1 [] ("log".toList) ("/tmp/t.yml".toList)
      ("tempresume".toList),
    c6_render_contract.2.2.2.2 .fileNotFound ("/tmp/t.yml".toList)
      ("tempresume".toList) ("/tmp/t.yml".toList)⟩

/-- C7: the CLI exit code is 0 exactly when the whole pipeline succeeds, and
on any fatal error the exit code is 1 and exactly one `❌ Error: `-prefixed
message is printed to stderr. -/
theorem c7_exit_code_and_error_message :
    ∀ (c : CliEnv) (rf jf o : List Char),
      ((customize c rf jf o).exitCode = 0
        ↔ (customize_resume c.env rf jf o).outcome = .ok ())
      ∧ (∀ e, (customize_resume c.env rf jf o).outcome = .error e →
        (customize c rf jf o).exitCode = 1
        ∧ ((customize c rf jf o).stderrMsgs.filter
            (fun msg => hasPre errMark msg)).length = 1) := by
  intro c rf jf o
  constructor
  · cases ho : (customize_resume c.env rf jf o).outcome with
    | error e =>
      constructor
      · intro h0
        simp [customize, ho] at h0
      · intro hok
        exact absurd hok (by simp)
    | ok u =>
      cases u
      by_cases hp : c.plyerAvailable <;> simp [customize, ho, hp]
  · intro e he
    have hst : (customize_resume c.env rf jf o).stderrMsgs = [] := by
      rcases run_cases c.env rf jf o with h | h
      · rw [he] at h
        exact absurd h (by simp)
      · exact h
    refine ⟨by simp [customize, he], ?_⟩
    simp [customize, he, hst, List.filter_cons, hasPre_self_append]

/-- C7 witness: the theorem applied to a concrete failing run. -/
theorem c7_exit_code_and_error_message_witness :
    ((customize_resume cliNoKey.env ("r.yml".toList) ("j.txt".toList)
        ("tempresume".toList)).outcome = .error .missingApiKey)
    ∧ ((customize cliNoKey ("r.yml".toList) ("j.txt".toList)
          ("tempresume".toList)).exitCode = 1
      ∧ (((customize cliNoKey ("r.yml".toList) ("j.txt".toList)
            ("tempresume".toList)).stderrMsgs.filter
          (fun msg => hasPre errMark msg)).length = 1)) :=
  ⟨rfl,
    (c7_exit_code_and_error_message cliNoKey ("r.yml".toList)
      ("j.txt".toList) ("tempresume".toList)).2 .missingApiKey rfl⟩

/-- C8: on the success path the notification side channel never escalates:
whatever the notification outcome, exit code is 0, the success message is
printed, and every user-visible output is identical. -/
theorem c8_notify_never_escalates :
    ∀ (c : CliEnv) (rf jf o : List Char) (n₁ n₂ : Except Unit Unit),
      (customize_resume c.env rf jf o).outcome = .ok () →
      (customize { c with notifyOutcome := n₁ } rf jf o).exitCode = 0
      ∧ msgDone ∈ (customize { c with notifyOutcome := n₁ } rf jf o).stdoutMsgs
      ∧ (customize { c with notifyOutcome := n₁ } rf jf o).exitCode
          = (customize { c with notifyOutcome := n₂ } rf jf o).exitCode
      ∧ (customize { c with notifyOutcome := n₁ } rf jf o).stdoutMsgs
          = (customize { c with notifyOutcome := n₂ } rf jf o).stdoutMsgs
      ∧ (customize { c with notifyOutcome := n₁ } rf jf o).stderrMsgs
          = (customize { c with notifyOutcome := n₂ } rf jf o).stderrMsgs
      ∧ (customize { c with notifyOutcome := n₁ } rf jf o).events
          = (customize { c with notifyOutcome := n₂ } rf jf o).events := by
  intro c rf jf o n₁ n₂ hok
  by_cases hp : c.plyerAvailable <;> simp [customize, hok, hp]

/-- C8 witness: the theorem applied to a concrete successful run with a
failing notification. -/
theorem c8_notify_never_escalates_witness :
    ((customize_resume cliAllOk.env ("r.yml".toList) ("j.txt".toList)
        ("tempresume".toList)).outcome = .ok ())
    ∧ ((customize { cliAllOk with notifyOutcome := .error () } ("r.yml".toList)
          ("j.txt".toList) ("tempresume".toList)).exitCode = 0
      ∧ msgDone ∈ (customize { cliAllOk with notifyOutcome := .error () }
          ("r.yml".toList) ("j.txt".toList) ("tempresume".toList)).stdoutMsgs
      ∧ (customize { cliAllOk with notifyOutcome := .error () } ("r.yml".toList)
          ("j.txt".toList) ("tempresume".toList)).exitCode
          = (customize { cliAllOk with notifyOutcome := .ok () } ("r.yml".toList)
              ("j.txt".toList) ("tempresume".toList)).exitCode
      ∧ (customize { cliAllOk with notifyOutcome := .error () } ("r.yml".toList)
          ("j.txt".toList) ("tempresume".toList)).stdoutMsgs
          = (customize { cliAllOk with notifyOutcome := .ok () } ("r.yml".toList)
              ("j.txt".toList) ("tempresume".toList)).stdoutMsgs
      ∧ (customize { cliAllOk with notifyOutcome := .error () } ("r.yml".toList)
          ("j.txt".toList) ("tempresume".toList)).stderrMsgs
          = (customize { cliAllOk with notifyOutcome := .ok () } ("r.yml".toList)
              ("j.txt".toList) ("tempresume".toList)).stderrMsgs
      ∧ (customize { cliAllOk with notifyOutcome := .error () } ("r.yml".toList)
          ("j.txt".toList) ("tempresume".toList)).events
          = (customize { cliAllOk with notifyOutcome := .ok () } ("r.yml".toList)
              ("j.txt".toList) ("tempresume".toList)).events) :=
  ⟨rfl, c8_notify_never_escalates cliAllOk ("r.yml".toList) ("j.txt".toList)
    ("tempresume".toList) (.error ()) (.ok ()) rfl⟩

/-- C10: the output base name never reaches the renderer invocation: the
recorded subprocess commands are identical across runs differing only in the
output name, the exit code is identical, and every recorded command names
only the fixed executable, verb and staging path. -/
theorem c10_output_name_only_messages :
    ∀ (c : CliEnv) (rf jf o₁ o₂ : List Char),
      procRunCmds (customize c rf jf o₁).events
          = procRunCmds (customize c rf jf o₂).events
      ∧ (customize c rf jf o₁).exitCode = (customize c rf jf o₂).exitCode
      ∧ (∀ cmd, cmd ∈ procRunCmds (customize c rf jf o₁).events →
          cmd = ["rendercv".toList, "render".toList, c.env.tempPath]) := by
  intro c rf jf o₁ o₂
  obtain ⟨hev, hout⟩ := customize_resume_indep c.env rf jf o₁ o₂
  have hcli : ∀ o, (customize_resume c.env rf jf o).outcome = (customize_resume c.env rf jf o₁).outcome → procRunCmds (customize c rf jf o).events = procRunCmds (customize_resume c.env rf jf o).events := by
    intro o _
    cases ho : (customize_resume c.env rf jf o).outcome with
    | error e => simp [customize, ho]
    | ok u =>
      cases u
      by_cases hp : c.plyerAvailable <;>
        simp [customize, ho, hp, procRunCmds, List.filterMap_append]
  refine ⟨?_, ?_, ?_⟩
  · rw [hcli o₁ rfl, hcli o₂ hout.symm, hev]
  · cases ho : (customize_resume c.env rf jf o₁).outcome with
    | error e =>
      have ho₂ : (customize_resume c.env rf jf o₂).outcome = .error e := by
        rw [← hout, ho]
      simp [customize, ho, ho₂]
    | ok u =>
      cases u
      have ho₂ : (customize_resume c.env rf jf o₂).outcome = .ok () := by
        rw [← hout, ho]
      by_cases hp : c.plyerAvailable <;> simp [customize, ho, ho₂, hp]
  · intro cmd hmem
    rw [hcli o₁ rfl] at hmem
    rcases procRunCmds_customize_resume c.env rf jf o₁ with h | h
    · rw [h] at hmem
      exact absurd hmem (by simp)
    · rw [h] at hmem
      simpa using hmem

/-- C10 witness: the theorem applied to concrete runs differing only in the
output base name. -/
theorem c10_output_name_only_messages_witness :
    (["rendercv".toList, "render".toList, "/tmp/t.yml".toList]
        ∈ procRunCmds (customize cliAllOk ("r.yml".toList) ("j.txt".toList)
            ("a".toList)).events)
    ∧ ["rendercv".toList, "render".toList, "/tmp/t.yml".toList]
        = ["rendercv".toList, "render".toList, cliAllOk.env.tempPath] :=
  ⟨by decide,
    (c10_output_name_only_messages cliAllOk ("r.yml".toList) ("j.txt".toList)
      ("a".toList) ("b".toList)).2.2 _ (by decide)⟩

end ResumeCustomizer
